import Mathlib

/-!
Formal model of `donwloader.py`, the Spotify liked-songs downloader.

Each Python function of the source is shallowly embedded as a Lean function.
External collaborators (the Spotify API, yt-dlp, the filesystem, stdin) are
passed in as explicit environment values; a raised Python exception is
modelled as `Except.error` carrying the exception text, and the
`try ... except` structure of the source is reproduced by where those
errors are matched and converted back into result strings.
-/

/-- Error value standing for a raised Python exception, carrying `str(e)`. -/
structure Err where
  msg : String
deriving Repr, DecidableEq

deriving instance DecidableEq for Except

/-- One saved-track item of a Spotify API page, after the field accesses
`track['name']`, `[a['name'] for a in track['artists']]`, `track['album']['name']`,
`track['duration_ms']`, `track['popularity']` (lines 83-89). -/
structure RawTrack where
  name : String
  artists : List String
  album : String
  duration_ms : Nat
  popularity : Nat
deriving Repr, DecidableEq

/-- The `song_info` dict built at lines 84-90: exactly the keys
`name, artist, album, duration_ms, popularity`. -/
structure SongInfo where
  name : String
  artist : String
  album : String
  duration_ms : Nat
  popularity : Nat
deriving Repr, DecidableEq

/-- Projection of one API item into `song_info` (lines 84-90); the artist
names are joined with `", "` as in line 86. -/
def projectTrack (t : RawTrack) : SongInfo :=
  { name := t.name
  , artist := String.intercalate ", " t.artists
  , album := t.album
  , duration_ms := t.duration_ms
  , popularity := t.popularity }

/-- The character class of the regex `r'[<>:"/\\|?*]'` at line 101. -/
def reservedChars : List Char := ['<', '>', ':', '"', '/', '\\', '|', '?', '*']

/-- Model of `sanitize_filename` (lines 99-101): `re.sub` with an empty
replacement deletes every occurrence of a character of the class, which on a
single-character class is exactly a character filter. -/
def sanitize_filename (filename : String) : String :=
  String.mk (filename.data.filter (fun c => !(reservedChars.contains c)))

/-!
Model of `pathlib.Path.glob` as used at line 109:
`self.download_folder.glob(f"{safe_filename}*")`.
`Path.glob` matches each directory entry name against the pattern with
`fnmatch`-style rules: `*` matches any (possibly empty) run of characters,
`?` matches any single character, `[...]` is a character class (leading `!`
negates it, a leading `]` is a literal member, `a-b` is a range), and a `[`
with no closing `]` is a literal `[`. All other characters match literally.
-/

/-- One member of an fnmatch character class. -/
inductive ClsItem where
  | single (c : Char)
  | range (lo hi : Char)
deriving Repr, DecidableEq

/-- One token of a parsed fnmatch pattern. -/
inductive GlobTok where
  | lit (c : Char)
  | anyChar
  | star
  | cls (negated : Bool) (items : List ClsItem)
deriving Repr, DecidableEq

/-- Membership of a character in one class item. -/
def clsItemMatch (c : Char) : ClsItem → Bool
  | .single a => c == a
  | .range lo hi => decide (lo ≤ c) && decide (c ≤ hi)

/-- Match of a character against a (possibly negated) class. -/
def clsMatch (negated : Bool) (items : List ClsItem) (c : Char) : Bool :=
  (items.any (clsItemMatch c)) != negated

/-- Scan for the closing `]` of a class body; returns the body and the rest. -/
def splitOnRBracket : List Char → Option (List Char × List Char)
  | [] => none
  | c :: rest =>
    if c = ']' then some ([], rest)
    else
      match splitOnRBracket rest with
      | none => none
      | some (body, after) => some (c :: body, after)

/-- Scan for the closing `]` of a class, treating a leading `]` as a literal
member of the class (fnmatch rule). -/
def splitClass (cs : List Char) : Option (List Char × List Char) :=
  match cs with
  | ']' :: rest =>
    (match splitOnRBracket rest with
     | none => none
     | some (body, after) => some (']' :: body, after))
  | _ => splitOnRBracket cs

/-- Parse the members of a class body; `a-b` (with a following member) is a
range, everything else is a single member, a trailing `-` is literal. -/
def parseItems : List Char → List ClsItem
  | [] => []
  | a :: '-' :: b :: rest => .range a b :: parseItems rest
  | c :: rest => .single c :: parseItems rest

/-- Fuelled fnmatch-pattern parser; the fuel only serves termination and
`globParse` supplies enough of it (one unit per consumed character). -/
def globParseFuel : Nat → List Char → List GlobTok
  | 0, _ => []
  | _ + 1, [] => []
  | fuel + 1, c :: rest =>
    if c = '*' then .star :: globParseFuel fuel rest
    else if c = '?' then .anyChar :: globParseFuel fuel rest
    else if c = '[' then
      match rest with
      | '!' :: r =>
        (match splitClass r with
         | some (body, after) => .cls true (parseItems body) :: globParseFuel fuel after
         | none => .lit '[' :: globParseFuel fuel rest)
      | _ =>
        (match splitClass rest with
         | some (body, after) => .cls false (parseItems body) :: globParseFuel fuel after
         | none => .lit '[' :: globParseFuel fuel rest)
    else .lit c :: globParseFuel fuel rest

/-- Parse an fnmatch pattern into tokens. -/
def globParse (cs : List Char) : List GlobTok :=
  globParseFuel cs.length cs

/-- Fuelled fnmatch matcher; each step consumes one unit of fuel and shrinks
the pattern or the candidate name, so `globMatch` supplies enough fuel. -/
def globMatchFuel : Nat → List GlobTok → List Char → Bool
  | 0, _, _ => false
  | _ + 1, [], s => s.isEmpty
  | fuel + 1, .star :: ps, [] => globMatchFuel fuel ps []
  | fuel + 1, .star :: ps, c :: s =>
    globMatchFuel fuel ps (c :: s) || globMatchFuel fuel (.star :: ps) s
  | _ + 1, .lit _ :: _, [] => false
  | fuel + 1, .lit a :: ps, c :: s => (c == a) && globMatchFuel fuel ps s
  | _ + 1, .anyChar :: _, [] => false
  | fuel + 1, .anyChar :: ps, _ :: s => globMatchFuel fuel ps s
  | _ + 1, .cls _ _ :: _, [] => false
  | fuel + 1, .cls negated items :: ps, c :: s =>
    clsMatch negated items c && globMatchFuel fuel ps s

/-- Match a parsed fnmatch pattern against a name. -/
def globMatch (ps : List GlobTok) (s : List Char) : Bool :=
  globMatchFuel (ps.length + s.length + 1) ps s

/-- The pattern `f"{identifier}*"` of line 109, parsed. -/
def globPattern (identifier : String) : List GlobTok :=
  globParse (identifier ++ "*").data

/-- Model of `list(self.download_folder.glob(f"{identifier}*"))` (line 109):
the directory entries whose name matches the pattern. The directory is
modelled by the list of its entry names. -/
def existing_files (listing : List String) (identifier : String) : List String :=
  listing.filter (fun nm => globMatch (globPattern identifier) nm.data)

/-- Model of the truthiness test `if potential_files:` (line 110). -/
def file_exists_check (listing : List String) (identifier : String) : Bool :=
  !(existing_files listing identifier).isEmpty

/-- A character that starts special fnmatch handling. -/
def isGlobMeta (c : Char) : Bool :=
  c == '*' || c == '?' || c == '['

/-- A string every character of which matches only itself in an fnmatch
pattern. -/
def globLiteral (s : String) : Bool :=
  s.data.all (fun c => !isGlobMeta c)

/-!
Per-track task: `search_and_download_song` (lines 103-137).

The environment of one task run records what the external collaborators would
do for this track: the outcome of reading the download-folder listing (the
glob of line 109, which sits OUTSIDE the `try` of line 113), the outcome of
the YouTube search `ydl.extract_info(f"ytsearch1:{query}", download=False)`
(the list of found entries, collapsing the `'entries' in info` key test and
the emptiness test of line 121, which branch identically), and the outcome of
`ydl_download.download([url])` plus the extension the transcoder picks for
the written file `f"{safe_filename}.{ext}"`.
-/

structure TaskEnv where
  dirListing : Except Err (List String)
  searchEntries : Except Err (List String)
  downloadResult : String → Except Err Unit
  downloadExt : String

/-- Result of one task run: the value `future.result()` will deliver
(`Except.error` meaning the task body raised and the exception will re-raise
there), together with the list of files the run added to the download
folder. -/
structure TaskRun where
  result : Except Err String
  written : List String

/-- The string `f"{song_info['artist']} - {song_info['name']}"` (line 105). -/
def query_of (song : SongInfo) : String :=
  song.artist ++ " - " ++ song.name

/-- The result string of line 111. -/
def skipMsg (query : String) : String :=
  "⏭️  Skipped (already exists): " ++ query

/-- The result string of line 132. -/
def dlMsg (query : String) : String :=
  "✓ Downloaded: " ++ query

/-- The result string of line 134. -/
def nfMsg (query : String) : String :=
  "❌ Not found: " ++ query

/-- The result string of line 137. -/
def errMsg (query msg : String) : String :=
  "❌ Error downloading " ++ query ++ ": " ++ msg

/-- Model of `search_and_download_song` (lines 103-137). The existence check
of lines 109-111 runs before the `try` of line 113, so an exception raised
there leaves the task as `Except.error`; exceptions raised by the search or
the download are caught by the `except` of line 136 and become the error
result string. -/
def search_and_download_song (tenv : TaskEnv) (song : SongInfo) : TaskRun :=
  let query := query_of song
  let safe_filename := sanitize_filename (query_of song)
  match tenv.dirListing with
  | .error e => { result := .error e, written := [] }
  | .ok listing =>
    if file_exists_check listing safe_filename then
      { result := .ok (skipMsg query), written := [] }
    else
      match tenv.searchEntries with
      | .error e => { result := .ok (errMsg query e.msg), written := [] }
      | .ok [] => { result := .ok (nfMsg query), written := [] }
      | .ok (url :: _) =>
        match tenv.downloadResult url with
        | .error e => { result := .ok (errMsg query e.msg), written := [] }
        | .ok _ =>
          { result := .ok (dlMsg query)
          , written := [safe_filename ++ "." ++ tenv.downloadExt] }

/-!
Coordinator: `download_all_songs` (lines 139-176).
-/

/-- The three tally counters of lines 145-147. -/
structure Summary where
  successful_downloads : Nat
  skipped_downloads : Nat
  failed_downloads : Nat
deriving Repr, DecidableEq

/-- Sum of the three counters. -/
def summaryTotal (s : Summary) : Nat :=
  s.successful_downloads + s.skipped_downloads + s.failed_downloads

/-- Python's `"pat" in result` substring test. -/
def strContains (s pat : String) : Bool :=
  (List.range (s.data.length + 1)).any (fun i => pat.data.isPrefixOf (s.data.drop i))

/-- The classification of one result string (lines 161-166): `if "Downloaded"
in result ... elif "Skipped" in result ... else` — exactly one counter is
bumped per result, and the single failed counter covers both the not-found
and the error result strings. -/
def tally (acc : Summary) (result : String) : Summary :=
  if strContains result "Downloaded" then
    { acc with successful_downloads := acc.successful_downloads + 1 }
  else if strContains result "Skipped" then
    { acc with skipped_downloads := acc.skipped_downloads + 1 }
  else
    { acc with failed_downloads := acc.failed_downloads + 1 }

/-- The `as_completed` loop of lines 157-169: consume each future's result in
completion order, re-raising (and so aborting the loop) if a task body
raised, otherwise tallying the result string. -/
def download_all_songs_go : List (SongInfo × TaskEnv) → Summary → Except Err Summary
  | [], acc => .ok acc
  | (song, tenv) :: rest, acc =>
    match (search_and_download_song tenv song).result with
    | .error e => .error e
    | .ok r => download_all_songs_go rest (tally acc r)

/-- Model of `download_all_songs` (lines 139-176): the submitted tasks are
given in completion order (the order `as_completed` yields them), starting
from zeroed counters. `Except.error` means a task body raised, the exception
re-raised out of `future.result()` (line 158) and the whole coordinator run
aborted before its summary. -/
def download_all_songs (tasks : List (SongInfo × TaskEnv)) : Except Err Summary :=
  download_all_songs_go tasks { successful_downloads := 0, skipped_downloads := 0, failed_downloads := 0 }

/-- The per-task result values of one coordinator run, in completion order. -/
def download_outcomes (tasks : List (SongInfo × TaskEnv)) : List (Except Err String) :=
  tasks.map (fun t => (search_and_download_song t.2 t.1).result)

/-!
Catalog fetch: `get_liked_songs` (lines 66-97).
-/

/-- Model of the `while True` pagination loop (lines 76-94), instrumented
with the list of offsets passed to `current_user_saved_tracks`. The API is a
function from the requested offset to the page items (`results['items']`), or
to a raised exception. `none` means the fuel ran out before the loop did
(the source loop would still be running). -/
def get_liked_songs_loop (api : Nat → Except Err (List RawTrack)) :
    Nat → Nat → List SongInfo → Option (Except Err (List SongInfo × List Nat))
  | 0, _, _ => none
  | fuel + 1, offset, acc =>
    match api offset with
    | .error e => some (.error e)
    | .ok results =>
      if results.isEmpty then some (.ok (acc, [offset]))
      else
        match get_liked_songs_loop api fuel (offset + 50) (acc ++ results.map projectTrack) with
        | none => none
        | some (.error e) => some (.error e)
        | some (.ok (songs, offs)) => some (.ok (songs, offset :: offs))

/-- Check that each element of a list of offsets is exactly 50 more than its
predecessor (the `offset += limit` of line 93 with `limit = 50`). -/
def stepsBy50 : List Nat → Bool
  | a :: b :: rest => (b == a + 50) && stepsBy50 (b :: rest)
  | _ => true

/-- Model of `get_liked_songs` (lines 66-97): raises if there is no
authenticated session (line 69), then pages with `limit = 50` starting at
`offset = 0`, adding 50 to the offset after every non-empty page. Next to
the returned song list it reports the trace of requested offsets. -/
def get_liked_songs (hasSession : Bool) (api : Nat → Except Err (List RawTrack))
    (fuel : Nat) : Option (Except Err (List SongInfo × List Nat)) :=
  if hasSession then get_liked_songs_loop api fuel 0 []
  else some (.error { msg := "Not authenticated with Spotify" })

/-!
JSON snapshot: `save_playlist_info` (lines 178-183) and `main` (lines 185-231).
-/

/-- Abstract JSON value, enough to state what `json.dump` serializes. -/
inductive Json where
  | str (s : String)
  | num (n : Nat)
  | arr (elems : List Json)
  | obj (members : List (String × Json))

/-- The JSON object serialized for one `song_info` dict: exactly the members
`name, artist, album, duration_ms, popularity`, in that order. -/
def songJson (s : SongInfo) : Json :=
  .obj [ ("name", .str s.name)
       , ("artist", .str s.artist)
       , ("album", .str s.album)
       , ("duration_ms", .num s.duration_ms)
       , ("popularity", .num s.popularity) ]

/-- The JSON array `json.dump(songs, ...)` serializes at line 182. -/
def playlistJson (songs : List SongInfo) : Json :=
  .arr (songs.map songJson)

/-- The member names of a JSON object. -/
def jsonKeys : Json → List String
  | .obj members => members.map Prod.fst
  | _ => []

/-- Observable effects of a `main` run relevant to the specification: console
messages the spec names, the write of `playlist_info.json`, the confirmation
prompt, and the invocation of the bulk download. Routine progress prints are
not recorded. A `wroteFile` event stands for writing the UTF-8, indented
rendering of `playlistJson content` to the named file in the download
folder. -/
inductive Event where
  | printed (msg : String)
  | wroteFile (path : String) (content : List SongInfo)
  | prompted (msg : String)
  | ranDownloads (songs : List SongInfo)
deriving Repr, DecidableEq

/-- An event is the playlist-snapshot write. -/
def isWriteEvent : Event → Bool
  | .wroteFile _ _ => true
  | _ => false

/-- An event is the bulk-download invocation. -/
def isRunEvent : Event → Bool
  | .ranDownloads _ => true
  | _ => false

/-- An event is the confirmation prompt. -/
def isPromptEvent : Event → Bool
  | .prompted _ => true
  | _ => false

/-- Model of `save_playlist_info` (lines 178-183): one write of
`playlist_info.json` into the download folder. -/
def save_playlist_info (songs : List SongInfo) : Event :=
  .wroteFile "playlist_info.json" songs

/-- Python's `str.lower()`, modelled character by character. -/
def strToLower (s : String) : String :=
  String.mk (s.data.map Char.toLower)

/-- Environment of one `main` run: the configured client id, what
`authenticate_spotify` does, the catalog API, fuel for the pagination loop,
the line read by `input(...)`, and the per-track task environments. -/
structure MainEnv where
  client_id : String
  authResult : Except Err Unit
  api : Nat → Except Err (List RawTrack)
  fetchFuel : Nat
  userResponse : String
  taskEnv : SongInfo → TaskEnv

/-- Model of `main` (lines 185-231). The placeholder-credentials check
returns early (lines 194-202); everything after runs inside the
`try ... except Exception` of lines 204-231, so any raised exception is
caught and reported as `❌ An error occurred: ...` and `main` still returns
normally. `none` means the pagination loop ran out of fuel. -/
def main_run (env : MainEnv) : Option (List Event) :=
  if env.client_id = "your_spotify_client_id_here" then
    some [.printed "❌ Please set up your Spotify API credentials first!"]
  else
    match env.authResult with
    | .error e => some [.printed ("❌ An error occurred: " ++ e.msg)]
    | .ok _ =>
      match get_liked_songs true env.api env.fetchFuel with
      | none => none
      | some (.error e) => some [.printed ("❌ An error occurred: " ++ e.msg)]
      | some (.ok (songs, _)) =>
        if songs.isEmpty then
          some [.printed "No liked songs found!"]
        else
          let pre := [save_playlist_info songs, Event.prompted "Download all? (y/n): "]
          if strToLower env.userResponse = "y" then
            match download_all_songs (songs.map (fun s => (s, env.taskEnv s))) with
            | .error e =>
              some (pre ++ [.ranDownloads songs, .printed ("❌ An error occurred: " ++ e.msg)])
            | .ok _ => some (pre ++ [.ranDownloads songs])
          else
            some (pre ++ [.printed "Download cancelled."])

/-- The process exit status of a terminating run: the script's top level is a
bare `main()` call and `main` never raises (its `except Exception` catches
everything and returns normally), so the interpreter always exits with
status 0. -/
def main_exit_code (env : MainEnv) : Option Nat :=
  (main_run env).map (fun _ => 0)

/-!
Concrete instances used to evaluate the model on specific inputs.
-/

/-- The track of the specification's not-found scenario. -/
def sampleSong : SongInfo :=
  { name := "Song", artist := "Band", album := "X", duration_ms := 200000, popularity := 50 }

/-- A track whose title contains a complete fnmatch bracket class. -/
def bracketSong : SongInfo :=
  { name := "[a]", artist := "B", album := "alb", duration_ms := 1000, popularity := 10 }

/-- Task environment where reading the download-folder listing raises an
`OSError` (the glob of line 109 sits outside the `try` of line 113). -/
def osErrorTaskEnv : TaskEnv :=
  { dirListing := .error { msg := "OSError: download folder unreadable" }
  , searchEntries := .ok []
  , downloadResult := fun _ => .ok ()
  , downloadExt := "mp3" }

/-- Task environment for a fresh directory and a successful search and
download. -/
def goodTaskEnv : TaskEnv :=
  { dirListing := .ok []
  , searchEntries := .ok ["u1"]
  , downloadResult := fun _ => .ok ()
  , downloadExt := "mp3" }

/-- Task environment where the YouTube search raises inside the `try`. -/
def searchFailTaskEnv : TaskEnv :=
  { dirListing := .ok []
  , searchEntries := .error { msg := "network unreachable" }
  , downloadResult := fun _ => .ok ()
  , downloadExt := "mp3" }

/-- Task environment where the search succeeds with an empty result set. -/
def notFoundTaskEnv : TaskEnv :=
  { dirListing := .ok []
  , searchEntries := .ok []
  , downloadResult := fun _ => .ok ()
  , downloadExt := "mp3" }

/-- Task environment whose directory listing holds exactly the file a fully
successful first run would have written for `bracketSong`. -/
def bracketTaskEnv : TaskEnv :=
  { dirListing := .ok ["B - [a].mp3"]
  , searchEntries := .ok []
  , downloadResult := fun _ => .ok ()
  , downloadExt := "mp3" }

/-- Task environment whose directory listing holds exactly the file a fully
successful first run would have written for `sampleSong`. -/
def rerunTaskEnv : TaskEnv :=
  { dirListing := .ok ["Band - Song.mp3"]
  , searchEntries := .ok ["u1"]
  , downloadResult := fun _ => .ok ()
  , downloadExt := "mp3" }

/-- First saved-track item of the pagination example. -/
def rawA : RawTrack :=
  { name := "A", artists := ["X", "Y"], album := "L", duration_ms := 1000, popularity := 20 }

/-- Second saved-track item of the pagination example. -/
def rawB : RawTrack :=
  { name := "B", artists := ["Z"], album := "M", duration_ms := 2000, popularity := 30 }

/-- Third saved-track item of the pagination example. -/
def rawC : RawTrack :=
  { name := "C", artists := ["W"], album := "N", duration_ms := 3000, popularity := 40 }

/-- Catalog API with two non-empty pages and then an empty one. -/
def pagedApi : Nat → Except Err (List RawTrack) := fun off =>
  if off = 0 then .ok [rawA, rawB]
  else if off = 50 then .ok [rawC]
  else .ok []

/-- The page contents of `pagedApi`, indexed by page number. -/
def pagedPages : Nat → List RawTrack := fun j =>
  if j = 0 then [rawA, rawB]
  else if j = 1 then [rawC]
  else []

/-- Catalog API whose very first page request raises. -/
def failingApi : Nat → Except Err (List RawTrack) := fun _ =>
  .error { msg := "HTTP 500 from Spotify" }

/-- Catalog API that reports an empty library. -/
def emptyApi : Nat → Except Err (List RawTrack) := fun _ => .ok []

/-- Main-run environment for a successful single-page run, confirmed with
`y`. -/
def successMainEnv : MainEnv :=
  { client_id := "real-client-id"
  , authResult := .ok ()
  , api := fun off => if off = 0 then .ok [rawA] else .ok []
  , fetchFuel := 2
  , userResponse := "y"
  , taskEnv := fun _ => goodTaskEnv }

/-- The event trace of `successMainEnv`. -/
def successTrace : List Event :=
  [ .wroteFile "playlist_info.json" [projectTrack rawA]
  , .prompted "Download all? (y/n): "
  , .ranDownloads [projectTrack rawA] ]

/-- Main-run environment where authentication raises. -/
def authFailMainEnv : MainEnv :=
  { client_id := "real-client-id"
  , authResult := .error { msg := "invalid session" }
  , api := emptyApi
  , fetchFuel := 1
  , userResponse := "y"
  , taskEnv := fun _ => goodTaskEnv }

/-- Main-run environment where the first catalog page request raises. -/
def pageFailMainEnv : MainEnv :=
  { client_id := "real-client-id"
  , authResult := .ok ()
  , api := failingApi
  , fetchFuel := 1
  , userResponse := "y"
  , taskEnv := fun _ => goodTaskEnv }

/-- Main-run environment whose library is empty. -/
def emptyCatalogMainEnv : MainEnv :=
  { client_id := "real-client-id"
  , authResult := .ok ()
  , api := emptyApi
  , fetchFuel := 1
  , userResponse := "y"
  , taskEnv := fun _ => goodTaskEnv }

/-!
Helper lemmas.
-/

theorem globParseFuel_nil (fuel : Nat) : globParseFuel fuel [] = [] := by
  cases fuel <;> rfl

theorem globParseFuel_literal (l : List Char) :
    ∀ fuel : Nat, l.length + 1 ≤ fuel → (∀ c ∈ l, isGlobMeta c = false) →
      globParseFuel fuel (l ++ ['*']) = l.map GlobTok.lit ++ [GlobTok.star] := by
  induction l with
  | nil =>
    intro fuel hfuel _
    obtain ⟨f, rfl⟩ : ∃ f, fuel = f + 1 := ⟨fuel - 1, by omega⟩
    simp [globParseFuel, globParseFuel_nil]
  | cons c l ih =>
    intro fuel hfuel hmeta
    obtain ⟨f, rfl⟩ : ∃ f, fuel = f + 1 := ⟨fuel - 1, by omega⟩
    have hc := hmeta c (by simp)
    simp only [isGlobMeta, Bool.or_eq_false_iff, beq_eq_false_iff_ne, ne_eq] at hc
    obtain ⟨⟨h1, h2⟩, h3⟩ := hc
    simp only [List.cons_append, globParseFuel, if_neg h1, if_neg h2, if_neg h3,
      List.map_cons, List.cons_append]
    congr 1
    exact ih f (by simpa using hfuel) (fun x hx => hmeta x (by simp [hx]))

theorem globMatchFuel_star (s : List Char) :
    ∀ fuel : Nat, s.length + 2 ≤ fuel → globMatchFuel fuel [GlobTok.star] s = true := by
  induction s with
  | nil =>
    intro fuel hfuel
    obtain ⟨f, rfl⟩ : ∃ f, fuel = f + 2 := ⟨fuel - 2, by omega⟩
    rfl
  | cons c s ih =>
    intro fuel hfuel
    obtain ⟨f, rfl⟩ : ∃ f, fuel = f + 1 := ⟨fuel - 1, by omega⟩
    have := ih f (by simpa using hfuel)
    simp [globMatchFuel, this]

theorem nil_isPrefixOf (s : List Char) : List.isPrefixOf ([] : List Char) s = true := by
  cases s <;> rfl

theorem isPrefixOf_append_self (l r : List Char) : l.isPrefixOf (l ++ r) = true := by
  induction l with
  | nil => exact nil_isPrefixOf r
  | cons a l ih => simp [List.isPrefixOf, ih]

theorem globMatchFuel_lits (l : List Char) :
    ∀ (fuel : Nat) (s : List Char), l.length + s.length + 2 ≤ fuel →
      globMatchFuel fuel (l.map GlobTok.lit ++ [GlobTok.star]) s = l.isPrefixOf s := by
  induction l with
  | nil =>
    intro fuel s hfuel
    rw [nil_isPrefixOf s]
    simpa using globMatchFuel_star s fuel (by simpa using hfuel)
  | cons a l ih =>
    intro fuel s hfuel
    obtain ⟨f, rfl⟩ : ∃ f, fuel = f + 1 := ⟨fuel - 1, by omega⟩
    cases s with
    | nil => rfl
    | cons c s =>
      have hrec := ih f s (by simp at hfuel ⊢; omega)
      have hstep : globMatchFuel (f + 1) ((a :: l).map GlobTok.lit ++ [GlobTok.star]) (c :: s)
          = ((c == a) && globMatchFuel f (l.map GlobTok.lit ++ [GlobTok.star]) s) := rfl
      have hpre : (a :: l).isPrefixOf (c :: s) = ((a == c) && l.isPrefixOf s) := rfl
      rw [hstep, hrec, hpre]
      by_cases h : a = c
      · subst h; rfl
      · have h1 : (c == a) = false := by simpa using fun hh => h hh.symm
        have h2 : (a == c) = false := by simpa using h
        rw [h1, h2]

theorem filter_not_isEmpty {α : Type} (p : α → Bool) (l : List α) :
    (!(l.filter p).isEmpty) = l.any p := by
  induction l with
  | nil => rfl
  | cons a l ih => cases hp : p a <;> simp [List.filter_cons, hp, ih]

theorem globPattern_literal (identifier : String) (hlit : globLiteral identifier = true) :
    globPattern identifier = identifier.data.map GlobTok.lit ++ [GlobTok.star] := by
  have hmeta : ∀ c ∈ identifier.data, isGlobMeta c = false := by
    intro c hc
    have := (List.all_eq_true.mp hlit) c hc
    simpa using this
  have hdata : (identifier ++ "*").data = identifier.data ++ ['*'] := by
    rw [String.data_append]
  have hlen : identifier.data.length + 1 ≤ (identifier.data ++ ['*']).length := by
    simp only [List.length_append, List.length_cons, List.length_nil]
    omega
  rw [globPattern, globParse, hdata]
  exact globParseFuel_literal identifier.data (identifier.data ++ ['*']).length hlen hmeta

theorem file_exists_check_eq_any (listing : List String) (identifier : String)
    (hlit : globLiteral identifier = true) :
    file_exists_check listing identifier =
      listing.any (fun nm => identifier.data.isPrefixOf nm.data) := by
  have hpt : ∀ nm : String,
      globMatch (globPattern identifier) nm.data = identifier.data.isPrefixOf nm.data := by
    intro nm
    rw [globMatch, globPattern_literal identifier hlit]
    apply globMatchFuel_lits
    simp only [List.length_append, List.length_map, List.length_cons, List.length_nil]
    omega
  rw [file_exists_check, existing_files, filter_not_isEmpty]
  simp only [hpt]

theorem sanitize_data (s : String) :
    (sanitize_filename s).data = s.data.filter (fun c => !(reservedChars.contains c)) := rfl

theorem sanitize_globLiteral (s : String)
    (hbr : '[' ∉ (sanitize_filename s).data) :
    globLiteral (sanitize_filename s) = true := by
  rw [globLiteral, List.all_eq_true]
  intro c hc
  have hmem := hc
  rw [sanitize_data] at hmem
  have hkeep := (List.mem_filter.mp hmem).2
  have hstar : ¬ c = '*' := by
    intro h; subst h; exact absurd hkeep (by decide)
  have hq : ¬ c = '?' := by
    intro h; subst h; exact absurd hkeep (by decide)
  have hbr2 : ¬ c = '[' := by
    intro h; subst h; exact hbr hc
  simp [isGlobMeta, hstar, hq, hbr2]

theorem stepsBy50_cons_of (a : Nat) (l : List Nat)
    (h : stepsBy50 l = true) (h2 : ∀ b ∈ l.head?, b = a + 50) :
    stepsBy50 (a :: l) = true := by
  cases l with
  | nil => rfl
  | cons b rest =>
    have hb : b = a + 50 := h2 b rfl
    subst hb
    have hstep : stepsBy50 (a :: (a + 50) :: rest)
        = ((a + 50 == a + 50) && stepsBy50 ((a + 50) :: rest)) := rfl
    rw [hstep, h]
    simp

theorem stepsBy50_map_range (n : Nat) :
    ∀ m : Nat, stepsBy50 ((List.range n).map (fun j => m + 50 * j)) = true := by
  induction n with
  | zero => intro m; rfl
  | succ k ih =>
    intro m
    rw [List.range_succ_eq_map, List.map_cons, List.map_map]
    have hcong : (List.range k).map ((fun j => m + 50 * j) ∘ Nat.succ)
        = (List.range k).map (fun j => (m + 50) + 50 * j) := by
      apply List.map_congr_left
      intro a _
      simp [Function.comp, Nat.mul_succ]
      omega
    rw [hcong]
    apply stepsBy50_cons_of
    · exact ih (m + 50)
    · intro b hb
      cases k with
      | zero => simp at hb
      | succ k2 =>
        rw [List.range_succ_eq_map, List.map_cons] at hb
        simp at hb
        omega

theorem get_liked_songs_loop_spec (api : Nat → Except Err (List RawTrack)) :
    ∀ (k : Nat) (pages : Nat → List RawTrack) (offset : Nat) (acc : List SongInfo) (fuel : Nat),
      k < fuel →
      (∀ j, j < k → api (offset + 50 * j) = Except.ok (pages j) ∧ pages j ≠ []) →
      api (offset + 50 * k) = Except.ok [] →
      get_liked_songs_loop api fuel offset acc =
        some (Except.ok
          (acc ++ ((List.range k).map (fun j => (pages j).map projectTrack)).flatten,
           (List.range (k + 1)).map (fun j => offset + 50 * j))) := by
  intro k
  induction k with
  | zero =>
    intro pages offset acc fuel hfuel _ hempty
    obtain ⟨f, rfl⟩ : ∃ f, fuel = f + 1 := ⟨fuel - 1, by omega⟩
    rw [Nat.mul_zero, Nat.add_zero] at hempty
    simp [get_liked_songs_loop, hempty, List.range_succ]
  | succ k ih =>
    intro pages offset acc fuel hfuel hpages hempty
    obtain ⟨f, rfl⟩ : ∃ f, fuel = f + 1 := ⟨fuel - 1, by omega⟩
    obtain ⟨hp0, hne0⟩ := hpages 0 (Nat.succ_pos k)
    rw [Nat.mul_zero, Nat.add_zero] at hp0
    have hrec := ih (fun j => pages (j + 1)) (offset + 50) (acc ++ (pages 0).map projectTrack) f
      (by omega)
      (fun j hj => by
        have h := hpages (j + 1) (by omega)
        have e : offset + 50 + 50 * j = offset + 50 * (j + 1) := by ring
        rw [e]
        exact h)
      (by
        have e : offset + 50 + 50 * k = offset + 50 * (k + 1) := by ring
        rw [e]
        exact hempty)
    have hne0b : (pages 0).isEmpty = false := by
      cases h0 : pages 0 with
      | nil => exact absurd h0 hne0
      | cons a l => rfl
    rw [show get_liked_songs_loop api (f + 1) offset acc
        = (match api offset with
           | .error e => some (.error e)
           | .ok results =>
             if results.isEmpty then some (.ok (acc, [offset]))
             else
               match get_liked_songs_loop api f (offset + 50) (acc ++ results.map projectTrack) with
               | none => none
               | some (.error e) => some (.error e)
               | some (.ok (songs, offs)) => some (.ok (songs, offset :: offs))) from rfl]
    rw [hp0]
    simp only [hne0b, Bool.false_eq_true, if_false, hrec]
    have hflat : (acc ++ (pages 0).map projectTrack)
        ++ ((List.range k).map (fun j => (pages (j + 1)).map projectTrack)).flatten
        = acc ++ ((List.range (k + 1)).map (fun j => (pages j).map projectTrack)).flatten := by
      rw [List.range_succ_eq_map, List.map_cons, List.map_map, List.flatten_cons,
        List.append_assoc]
      rfl
    have hoffs : offset :: (List.range (k + 1)).map (fun j => offset + 50 + 50 * j)
        = (List.range (k + 1 + 1)).map (fun j => offset + 50 * j) := by
      rw [List.range_succ_eq_map (k + 1), List.map_cons, List.map_map]
      have hcong : (List.range (k + 1)).map ((fun j => offset + 50 * j) ∘ Nat.succ)
          = (List.range (k + 1)).map (fun j => offset + 50 + 50 * j) := by
        apply List.map_congr_left
        intro a _
        simp [Function.comp, Nat.mul_succ]
        omega
      rw [hcong]
      simp
    rw [hflat, hoffs]

theorem get_liked_songs_loop_error (api : Nat → Except Err (List RawTrack)) (e : Err) :
    ∀ (k : Nat) (pages : Nat → List RawTrack) (offset : Nat) (acc : List SongInfo) (fuel : Nat),
      k < fuel →
      (∀ j, j < k → api (offset + 50 * j) = Except.ok (pages j) ∧ pages j ≠ []) →
      api (offset + 50 * k) = Except.error e →
      get_liked_songs_loop api fuel offset acc = some (Except.error e) := by
  intro k
  induction k with
  | zero =>
    intro pages offset acc fuel hfuel _ herr
    obtain ⟨f, rfl⟩ : ∃ f, fuel = f + 1 := ⟨fuel - 1, by omega⟩
    rw [Nat.mul_zero, Nat.add_zero] at herr
    simp [get_liked_songs_loop, herr]
  | succ k ih =>
    intro pages offset acc fuel hfuel hpages herr
    obtain ⟨f, rfl⟩ : ∃ f, fuel = f + 1 := ⟨fuel - 1, by omega⟩
    obtain ⟨hp0, hne0⟩ := hpages 0 (Nat.succ_pos k)
    rw [Nat.mul_zero, Nat.add_zero] at hp0
    have hrec := ih (fun j => pages (j + 1)) (offset + 50) (acc ++ (pages 0).map projectTrack) f
      (by omega)
      (fun j hj => by
        have h := hpages (j + 1) (by omega)
        have e2 : offset + 50 + 50 * j = offset + 50 * (j + 1) := by ring
        rw [e2]
        exact h)
      (by
        have e2 : offset + 50 + 50 * k = offset + 50 * (k + 1) := by ring
        rw [e2]
        exact herr)
    have hne0b : (pages 0).isEmpty = false := by
      cases h0 : pages 0 with
      | nil => exact absurd h0 hne0
      | cons a l => rfl
    rw [show get_liked_songs_loop api (f + 1) offset acc
        = (match api offset with
           | .error e => some (.error e)
           | .ok results =>
             if results.isEmpty then some (.ok (acc, [offset]))
             else
               match get_liked_songs_loop api f (offset + 50) (acc ++ results.map projectTrack) with
               | none => none
               | some (.error e) => some (.error e)
               | some (.ok (songs, offs)) => some (.ok (songs, offset :: offs))) from rfl]
    rw [hp0]
    simp only [hne0b, Bool.false_eq_true, if_false, hrec]

theorem tally_total (acc : Summary) (r : String) :
    summaryTotal (tally acc r) = summaryTotal acc + 1 := by
  obtain ⟨a, b, c⟩ := acc
  rw [tally]
  by_cases h1 : strContains r "Downloaded" = true
  · rw [if_pos h1]
    simp [summaryTotal]
    omega
  · rw [if_neg h1]
    by_cases h2 : strContains r "Skipped" = true
    · rw [if_pos h2]
      simp [summaryTotal]
      omega
    · rw [if_neg h2]
      simp [summaryTotal]
      omega

theorem download_all_songs_go_spec :
    ∀ (tasks : List (SongInfo × TaskEnv)) (acc : Summary),
      (∀ t ∈ tasks, (search_and_download_song t.2 t.1).result.isOk = true) →
      ∃ s : Summary, download_all_songs_go tasks acc = Except.ok s ∧
        summaryTotal s = summaryTotal acc + tasks.length := by
  intro tasks
  induction tasks with
  | nil =>
    intro acc _
    exact ⟨acc, rfl, by simp⟩
  | cons t rest ih =>
    intro acc hok
    obtain ⟨song, tenv⟩ := t
    have h1 := hok (song, tenv) (by simp)
    cases hres : (search_and_download_song tenv song).result with
    | error e =>
      rw [hres] at h1
      exact absurd h1 (by simp [Except.isOk, Except.toBool])
    | ok r =>
      obtain ⟨s, hs, hsum⟩ := ih (tally acc r) (fun u hu => hok u (by simp [hu]))
      refine ⟨s, ?_, ?_⟩
      · rw [show download_all_songs_go ((song, tenv) :: rest) acc
            = (match (search_and_download_song tenv song).result with
               | .error e => .error e
               | .ok r => download_all_songs_go rest (tally acc r)) from rfl]
        rw [hres]
        exact hs
      · rw [hsum, tally_total]
        simp
        omega

/-!
Claim theorems.
-/

/-- C4. The sanitizer removes exactly the characters `< > : " / \ | ? *` and
nothing else, preserving every other character (the model is
character-based, so arbitrary Unicode is covered), keeps the relative order
of the surviving characters (the result is a sublist of the input), and is
idempotent. It is a plain total Lean function, hence pure, total and
deterministic. -/
theorem sanitize_spec (x : String) :
    sanitize_filename (sanitize_filename x) = sanitize_filename x ∧
    List.Sublist (sanitize_filename x).data x.data ∧
    (∀ c : Char, reservedChars.contains c = true →
      (sanitize_filename x).data.count c = 0) ∧
    (∀ c : Char, reservedChars.contains c = false →
      (sanitize_filename x).data.count c = x.data.count c) := by
  refine ⟨?_, ?_, ?_, ?_⟩
  · rw [sanitize_filename, sanitize_filename]
    congr 1
    apply List.filter_eq_self.mpr
    intro a ha
    exact (List.mem_filter.mp ha).2
  · exact List.filter_sublist x.data
  · intro c hc
    rw [List.count_eq_zero]
    intro hmem
    have hkeep := (List.mem_filter.mp hmem).2
    rw [hc] at hkeep
    exact Bool.noConfusion hkeep
  · intro c hc
    apply List.count_filter
    rw [hc]
    rfl

/-- Witness for C4: evaluation at the concrete input `a<b?`, removing `<`
(reserved) and keeping `a` (not reserved). -/
theorem sanitize_spec_witness :
    reservedChars.contains '<' = true ∧
    (sanitize_filename "a<b?").data.count '<' = 0 ∧
    reservedChars.contains 'a' = false ∧
    (sanitize_filename "a<b?").data.count 'a' = ("a<b?" : String).data.count 'a' :=
  ⟨by decide, (sanitize_spec "a<b?").2.2.1 '<' (by decide),
   by decide, (sanitize_spec "a<b?").2.2.2 'a' (by decide)⟩

/-- C3 (amended). For identifiers without fnmatch metacharacters (`*`, `?`,
`[` — only such identifiers make the glob pattern a literal prefix), the
existence check is true iff some file name in the directory listing has the
identifier as a prefix; and on an empty directory it is false for every
identifier. The amendment is forced: for identifiers containing a complete
bracket class the glob is not a prefix test (see the counterexample). -/
theorem existence_check_spec (listing : List String) (identifier : String) :
    (globLiteral identifier = true →
      (file_exists_check listing identifier = true ↔
        ∃ nm ∈ listing, identifier.data.isPrefixOf nm.data = true)) ∧
    file_exists_check [] identifier = false := by
  constructor
  · intro hlit
    rw [file_exists_check_eq_any listing identifier hlit]
    exact List.any_eq_true
  · rfl

/-- Witness for C3: a match on `abc.mp3` for identifier `abc`, and the empty
directory. -/
theorem existence_check_spec_witness :
    file_exists_check ["abc.mp3"] "abc" = true ∧
    file_exists_check [] "abc" = false := by
  constructor
  · exact ((existence_check_spec ["abc.mp3"] "abc").1 (by decide)).mpr
      ⟨"abc.mp3", by decide, by decide⟩
  · exact (existence_check_spec [] "abc").2

/-- Counterexample to C3 as stated: for the identifier `[a]` (which survives
the sanitizer unchanged) and a directory holding `[a]x`, the file name has
the identifier as a prefix, yet `Path.glob("[a]*")` treats `[a]` as a
character class matching only `a`, so the check returns false. So the
existence check is NOT a prefix test for every identifier. -/
theorem existence_check_spec_counterexample :
    ¬ (file_exists_check ["[a]x"] "[a]" = true ↔
        ∃ nm ∈ (["[a]x"] : List String), ("[a]" : String).data.isPrefixOf nm.data = true) := by
  decide

/-- C2 (amended). Exceptions raised inside the `try` of line 113 — the
search step and the download step — are caught and mapped to the per-track
error result, and whenever the pre-`try` existence check completes, the task
delivers a result string instead of re-raising. The amendment is forced: the
existence check of lines 106-111 runs BEFORE the `try`, so an exception
raised there propagates out of the task body (see the counterexample),
contrary to the claim's "anywhere in the whole per-track task body". -/
theorem exception_isolation (tenv : TaskEnv) (song : SongInfo) (listing : List String)
    (hdl : tenv.dirListing = Except.ok listing) :
    (search_and_download_song tenv song).result.isOk = true ∧
    (file_exists_check listing (sanitize_filename (query_of song)) = false →
      (∀ e : Err, tenv.searchEntries = Except.error e →
        (search_and_download_song tenv song).result =
          Except.ok (errMsg (query_of song) e.msg)) ∧
      (∀ (e : Err) (url : String) (rest : List String),
        tenv.searchEntries = Except.ok (url :: rest) →
        tenv.downloadResult url = Except.error e →
        (search_and_download_song tenv song).result =
          Except.ok (errMsg (query_of song) e.msg))) := by
  constructor
  · by_cases hex : file_exists_check listing (sanitize_filename (query_of song)) = true
    · simp [search_and_download_song, hdl, hex, Except.isOk, Except.toBool]
    · have hex2 : file_exists_check listing (sanitize_filename (query_of song)) = false := by
        cases hfc : file_exists_check listing (sanitize_filename (query_of song))
        · rfl
        · exact absurd hfc hex
      cases hse : tenv.searchEntries with
      | error e => simp [search_and_download_song, hdl, hex2, hse, Except.isOk, Except.toBool]
      | ok entries =>
        cases entries with
        | nil => simp [search_and_download_song, hdl, hex2, hse, Except.isOk, Except.toBool]
        | cons url rest =>
          cases hdr : tenv.downloadResult url with
          | error e =>
            simp [search_and_download_song, hdl, hex2, hse, hdr, Except.isOk, Except.toBool]
          | ok u =>
            simp [search_and_download_song, hdl, hex2, hse, hdr, Except.isOk, Except.toBool]
  · intro hex
    constructor
    · intro e hse
      simp [search_and_download_song, hdl, hex, hse]
    · intro e url rest hse hdr
      simp [search_and_download_song, hdl, hex, hse, hdr]

/-- Witness for C2: with a readable (empty) directory listing and a search
step that raises `network unreachable`, the task completes with an error
result string instead of re-raising. -/
theorem exception_isolation_witness :
    (search_and_download_song searchFailTaskEnv sampleSong).result.isOk = true ∧
    (search_and_download_song searchFailTaskEnv sampleSong).result =
      Except.ok (errMsg (query_of sampleSong) "network unreachable") := by
  have h := exception_isolation searchFailTaskEnv sampleSong [] rfl
  exact ⟨h.1, (h.2 (by decide)).1 { msg := "network unreachable" } rfl⟩

/-- Counterexample to C2 as stated: when the existence check itself raises
an `OSError` (it runs before the `try` of line 113), the exception leaves
the task body uncaught, so `future.result()` re-raises it and the
result-collection loop of the coordinator aborts. -/
theorem exception_isolation_counterexample :
    (search_and_download_song osErrorTaskEnv sampleSong).result =
      Except.error { msg := "OSError: download folder unreadable" } ∧
    (search_and_download_song osErrorTaskEnv sampleSong).result.isOk = false := by
  decide

/-- Helper for C6: if the listing holds a file name with the (bracket-free)
sanitized identifier as a prefix, the task is skipped and writes nothing. -/
theorem skip_when_prefix_file (tenv : TaskEnv) (song : SongInfo) (listing : List String)
    (nm : String)
    (hdl : tenv.dirListing = Except.ok listing)
    (hbr : '[' ∉ (sanitize_filename (query_of song)).data)
    (hmem : nm ∈ listing)
    (hpre : (sanitize_filename (query_of song)).data.isPrefixOf nm.data = true) :
    search_and_download_song tenv song =
      { result := Except.ok (skipMsg (query_of song)), written := [] } := by
  have hex : file_exists_check listing (sanitize_filename (query_of song)) = true := by
    rw [file_exists_check_eq_any listing _ (sanitize_globLiteral _ hbr)]
    exact List.any_eq_true.mpr ⟨nm, hmem, hpre⟩
  simp [search_and_download_song, hdl, hex]

/-- C6 (amended). For tracks whose sanitized identifier contains no `[`
(the sanitizer already removes `*` and `?`, so `[` is the only surviving
fnmatch metacharacter): if the output directory holds a file whose name has
the sanitized identifier as a prefix when the task runs, the task's outcome
is Skipped and nothing is written; consequently, a second coordinator run
whose every task sees the directory populated by a fully successful first run
(one file `identifier.ext` per track) yields the Skipped outcome for every
track. The bracket restriction is forced by the glob semantics (see the
counterexample). -/
theorem skip_on_exists_idempotence :
    (∀ (tenv : TaskEnv) (song : SongInfo) (listing : List String) (nm : String),
      tenv.dirListing = Except.ok listing →
      '[' ∉ (sanitize_filename (query_of song)).data →
      nm ∈ listing →
      (sanitize_filename (query_of song)).data.isPrefixOf nm.data = true →
      search_and_download_song tenv song =
        { result := Except.ok (skipMsg (query_of song)), written := [] }) ∧
    (∀ (songs : List SongInfo) (exts : SongInfo → String) (mkEnv : SongInfo → TaskEnv),
      (∀ s ∈ songs, '[' ∉ (sanitize_filename (query_of s)).data) →
      (∀ s ∈ songs, (mkEnv s).dirListing =
        Except.ok (songs.map (fun t => sanitize_filename (query_of t) ++ "." ++ exts t))) →
      ∀ s ∈ songs, (search_and_download_song (mkEnv s) s).result =
        Except.ok (skipMsg (query_of s))) := by
  constructor
  · exact skip_when_prefix_file
  · intro songs exts mkEnv hbr hdl s hs
    have hfile : sanitize_filename (query_of s) ++ "." ++ exts s
        ∈ songs.map (fun t => sanitize_filename (query_of t) ++ "." ++ exts t) :=
      List.mem_map.mpr ⟨s, hs, rfl⟩
    have hpre : (sanitize_filename (query_of s)).data.isPrefixOf
        (sanitize_filename (query_of s) ++ "." ++ exts s).data = true := by
      rw [String.data_append, String.data_append, List.append_assoc]
      exact isPrefixOf_append_self _ _
    have h := skip_when_prefix_file (mkEnv s) s _ _ (hdl s hs) (hbr s hs) hfile hpre
    rw [h]

/-- Witness for C6: rerunning the task for the sample track against a
directory holding the file written by a successful first run
(`Band - Song.mp3`) yields the Skipped outcome. -/
theorem skip_on_exists_idempotence_witness :
    (search_and_download_song rerunTaskEnv sampleSong).result =
      Except.ok (skipMsg (query_of sampleSong)) := by
  exact skip_on_exists_idempotence.2 [sampleSong] (fun _ => "mp3") (fun _ => rerunTaskEnv)
    (by decide) (by decide) sampleSong (by decide)

/-- Counterexample to C6 as stated: for the track `B - [a]` the directory
holds exactly the file `B - [a].mp3` written by a successful first run, and
that file name has the sanitized identifier as a prefix, yet the glob
pattern `B - [a]*` reads `[a]` as a character class, misses the file, and
the task proceeds to search instead of skipping. -/
theorem skip_on_exists_idempotence_counterexample :
    bracketTaskEnv.dirListing = Except.ok ["B - [a].mp3"] ∧
    sanitize_filename (query_of bracketSong) = "B - [a]" ∧
    ("B - [a]" : String).data.isPrefixOf ("B - [a].mp3" : String).data = true ∧
    (search_and_download_song bracketTaskEnv bracketSong).result =
      Except.ok (nfMsg (query_of bracketSong)) ∧
    ¬ (search_and_download_song bracketTaskEnv bracketSong).result =
      Except.ok (skipMsg (query_of bracketSong)) := by
  decide

/-- C7. If the task reaches the search (the existence check finds nothing)
and the single-result search returns an empty result set, the outcome is the
Not-found result string, nothing is written to the output directory, and the
download collaborator is never consulted (the conclusion holds for every
`downloadResult` in the environment). -/
theorem not_found_outcome (tenv : TaskEnv) (song : SongInfo) (listing : List String)
    (hdl : tenv.dirListing = Except.ok listing)
    (hex : file_exists_check listing (sanitize_filename (query_of song)) = false)
    (hsearch : tenv.searchEntries = Except.ok []) :
    search_and_download_song tenv song =
      { result := Except.ok (nfMsg (query_of song)), written := [] } := by
  simp [search_and_download_song, hdl, hex, hsearch]

/-- Witness for C7: the specification's scenario track
`{name: Song, artist: Band, album: X, duration_ms: 200000, popularity: 50}`
with an empty search result and an empty output directory. -/
theorem not_found_outcome_witness :
    search_and_download_song notFoundTaskEnv sampleSong =
      { result := Except.ok (nfMsg (query_of sampleSong)), written := [] } :=
  not_found_outcome notFoundTaskEnv sampleSong [] rfl (by decide) rfl

/-- C1 (amended). For every coordinator run, in any completion order, in
which every task body completes without raising (in particular the
pre-`try` existence check does not raise): every submitted task contributes
exactly one result string, each result string bumps exactly one of the
three counters (the single failed counter covering both Not-found and Error
results), and the counters sum to the number N of submitted tracks. The
"without raising" amendment is forced: a task whose existence check raises
re-raises out of `future.result()` and the run aborts with no summary (see
the counterexample). -/
theorem total_accounting (tasks order : List (SongInfo × TaskEnv))
    (hperm : order.Perm tasks)
    (hok : ∀ t ∈ order, (search_and_download_song t.2 t.1).result.isOk = true) :
    ∃ s : Summary, download_all_songs order = Except.ok s ∧
      summaryTotal s = tasks.length := by
  obtain ⟨s, hs, hsum⟩ := download_all_songs_go_spec order
    { successful_downloads := 0, skipped_downloads := 0, failed_downloads := 0 } hok
  refine ⟨s, hs, ?_⟩
  rw [hsum, hperm.length_eq]
  simp [summaryTotal]

/-- Witness for C1: two concrete tasks (one fresh download, one skipped
rerun) give a summary whose counters sum to 2. -/
theorem total_accounting_witness :
    download_all_songs [(sampleSong, goodTaskEnv), (sampleSong, rerunTaskEnv)] =
      Except.ok { successful_downloads := 1, skipped_downloads := 1, failed_downloads := 0 } ∧
    summaryTotal { successful_downloads := 1, skipped_downloads := 1, failed_downloads := 0 } = 2 := by
  obtain ⟨s, hs, hsum⟩ := total_accounting
    [(sampleSong, goodTaskEnv), (sampleSong, rerunTaskEnv)]
    [(sampleSong, goodTaskEnv), (sampleSong, rerunTaskEnv)]
    (List.Perm.refl _) (by decide)
  have hev : download_all_songs [(sampleSong, goodTaskEnv), (sampleSong, rerunTaskEnv)] =
      Except.ok { successful_downloads := 1, skipped_downloads := 1, failed_downloads := 0 } := by
    decide
  rw [hev] at hs
  injection hs with hs2
  rw [← hs2] at hsum
  exact ⟨hev, hsum⟩

/-- Counterexample to C1 as stated: a single-track run whose existence check
raises never produces a summary at all — the coordinator re-raises instead
of returning counts, so no counts sum to N on that run. -/
theorem total_accounting_counterexample :
    ¬ ∃ s : Summary, download_all_songs [(sampleSong, osErrorTaskEnv)] = Except.ok s := by
  intro h
  obtain ⟨s, hs⟩ := h
  have hev : download_all_songs [(sampleSong, osErrorTaskEnv)] =
      Except.error { msg := "OSError: download folder unreadable" } := by decide
  rw [hev] at hs
  exact Except.noConfusion hs

/-- C5. With pages `pages j` at the offsets `50 * j` for `j < k` all
non-empty and the page at offset `50 * k` the first empty one, the fetch
returns the projection of the concatenation of the pages in API page order;
the catalog length is the sum of the page sizes; the requested offsets start
at 0 and each successive request adds exactly the page size 50; and the run
stops at the first empty page (the offset trace is exactly the k+1 requests
up to and including the empty one). -/
theorem pagination_spec (api : Nat → Except Err (List RawTrack)) (pages : Nat → List RawTrack)
    (k fuel : Nat) (hfuel : k < fuel)
    (hpages : ∀ j, j < k → api (50 * j) = Except.ok (pages j) ∧ pages j ≠ [])
    (hempty : api (50 * k) = Except.ok []) :
    get_liked_songs true api fuel =
      some (Except.ok
        (((List.range k).map (fun j => (pages j).map projectTrack)).flatten,
         (List.range (k + 1)).map (fun j => 50 * j))) ∧
    (((List.range k).map (fun j => (pages j).map projectTrack)).flatten).length =
      ((List.range k).map (fun j => (pages j).length)).sum ∧
    stepsBy50 ((List.range (k + 1)).map (fun j => 50 * j)) = true ∧
    ((List.range (k + 1)).map (fun j => 50 * j)).head? = some 0 := by
  refine ⟨?_, ?_, ?_, ?_⟩
  · have h := get_liked_songs_loop_spec api k pages 0 [] fuel hfuel
      (fun j hj => by simpa using hpages j hj)
      (by simpa using hempty)
    rw [show get_liked_songs true api fuel = get_liked_songs_loop api fuel 0 [] from rfl, h]
    have hcong : (List.range (k + 1)).map (fun j => 0 + 50 * j)
        = (List.range (k + 1)).map (fun j => 50 * j) :=
      List.map_congr_left (fun a _ => by omega)
    rw [List.nil_append, hcong]
  · rw [List.length_flatten, List.map_map]
    congr 1
    apply List.map_congr_left
    intro a _
    simp [Function.comp, List.length_map]
  · have h := stepsBy50_map_range (k + 1) 0
    have hcong : (List.range (k + 1)).map (fun j => 0 + 50 * j)
        = (List.range (k + 1)).map (fun j => 50 * j) :=
      List.map_congr_left (fun a _ => by omega)
    rw [hcong] at h
    exact h
  · rw [List.range_succ_eq_map, List.map_cons]
    simp

/-- Witness for C5: a two-page catalog (sizes 2 and 1) followed by the empty
page; the catalog is the three projected tracks in page order and the
requested offsets are 0, 50, 100. -/
theorem pagination_spec_witness :
    get_liked_songs true pagedApi 3 =
      some (Except.ok
        ([projectTrack rawA, projectTrack rawB, projectTrack rawC], [0, 50, 100])) ∧
    ([projectTrack rawA, projectTrack rawB, projectTrack rawC] : List SongInfo).length = [2, 1].sum ∧
    stepsBy50 [0, 50, 100] = true ∧
    ([0, 50, 100] : List Nat).head? = some 0 := by
  have h := pagination_spec pagedApi pagedPages 2 3 (by omega) (by decide) (by decide)
  revert h
  decide

/-- C8 (amended). On every run that gets past the credentials check,
authenticates, and fetches a NON-EMPTY catalog, the catalog snapshot is
written exactly once — it is the first observable event, so it precedes the
confirmation prompt and any download — to `playlist_info.json` in the
download folder, as the (UTF-8, indented) JSON array of one object per
track in catalog order, each object carrying exactly the members
`name, artist, album, duration_ms, popularity`. The non-empty restriction
is forced: a run whose fetched catalog is empty returns before the snapshot
is written (see the counterexample and claim C10). -/
theorem snapshot_write (env : MainEnv) (songs : List SongInfo) (offs : List Nat)
    (hclient : ¬ env.client_id = "your_spotify_client_id_here")
    (hauth : env.authResult = Except.ok ())
    (hfetch : get_liked_songs true env.api env.fetchFuel = some (Except.ok (songs, offs)))
    (hne : songs ≠ []) :
    (main_run env).isSome = true ∧
    ∀ tr : List Event, main_run env = some tr →
      tr.head? = some (Event.wroteFile "playlist_info.json" songs) ∧
      tr.tail.all (fun ev => !isWriteEvent ev) = true ∧
      ∀ s : SongInfo, jsonKeys (songJson s) =
        ["name", "artist", "album", "duration_ms", "popularity"] := by
  have hempty : songs.isEmpty = false := by
    cases songs with
    | nil => exact absurd rfl hne
    | cons a l => rfl
  have hshape : ∃ rest : List Event, main_run env =
      some (Event.wroteFile "playlist_info.json" songs
        :: Event.prompted "Download all? (y/n): " :: rest) ∧
      rest.all (fun ev => !isWriteEvent ev) = true := by
    rw [main_run, if_neg hclient, hauth, hfetch]
    simp only [hempty, Bool.false_eq_true, if_false]
    by_cases hy : strToLower env.userResponse = "y"
    · rw [if_pos hy]
      cases hdl : download_all_songs (songs.map (fun s => (s, env.taskEnv s))) with
      | error e =>
        exact ⟨[.ranDownloads songs, .printed ("❌ An error occurred: " ++ e.msg)], rfl, rfl⟩
      | ok s => exact ⟨[.ranDownloads songs], rfl, rfl⟩
    · rw [if_neg hy]
      exact ⟨[.printed "Download cancelled."], rfl, rfl⟩
  obtain ⟨rest, hmr, hall⟩ := hshape
  refine ⟨by rw [hmr]; rfl, ?_⟩
  intro tr htr
  rw [hmr] at htr
  have htr2 := Option.some.inj htr
  refine ⟨?_, ?_, fun s => rfl⟩
  · rw [← htr2]
    rfl
  · rw [← htr2, List.tail_cons, List.all_cons, hall]
    rfl

/-- Witness for C8: a one-track run confirmed with `y`; the snapshot write is
the first event, the rest of the trace holds no further write. -/
theorem snapshot_write_witness :
    main_run successMainEnv = some successTrace ∧
    successTrace.head? = some (Event.wroteFile "playlist_info.json" [projectTrack rawA]) ∧
    successTrace.tail.all (fun ev => !isWriteEvent ev) = true ∧
    jsonKeys (songJson (projectTrack rawA)) =
      ["name", "artist", "album", "duration_ms", "popularity"] := by
  have h := snapshot_write successMainEnv [projectTrack rawA] [0, 50]
    (by decide) rfl (by decide) (by decide)
  have hmr : main_run successMainEnv = some successTrace := by decide
  have h2 := h.2 successTrace hmr
  exact ⟨hmr, h2.1, h2.2.1, h2.2.2 (projectTrack rawA)⟩

/-- Counterexample to C8 as stated ("on every run ... exactly once"): a run
whose catalog fetch succeeds with an empty library writes no snapshot at
all — the whole event trace is the single report line and contains no file
write. -/
theorem snapshot_write_counterexample :
    main_run emptyCatalogMainEnv = some [Event.printed "No liked songs found!"] ∧
    ([Event.printed "No liked songs found!"] : List Event).all
      (fun ev => !isWriteEvent ev) = true := by
  decide

/-- C9 (amended). If the credentials are configured but there is no valid
session (authentication raises) or any reachable catalog page request
raises, the run aborts before any per-track processing: the whole event
trace is the single user-visible error message (so no snapshot write, no
prompt, no download run, and no truncated catalog is ever handed to the
rest of `main`) — but, contrary to the claim's "non-zero process exit
code", the process exits with status 0, because `main` catches the
exception, prints, and returns normally, and the script's top level never
sets an exit status (see the counterexample). -/
theorem fatal_error_abort (env : MainEnv) (e : Err)
    (hclient : ¬ env.client_id = "your_spotify_client_id_here")
    (hfatal : env.authResult = Except.error e ∨
      (env.authResult = Except.ok () ∧ ∃ k : Nat, ∃ pages : Nat → List RawTrack,
        k < env.fetchFuel ∧
        (∀ j, j < k → env.api (50 * j) = Except.ok (pages j) ∧ pages j ≠ []) ∧
        env.api (50 * k) = Except.error e)) :
    main_run env = some [Event.printed ("❌ An error occurred: " ++ e.msg)] ∧
    main_exit_code env = some 0 := by
  have hmr : main_run env = some [Event.printed ("❌ An error occurred: " ++ e.msg)] := by
    rcases hfatal with hauth | ⟨hauth, k, pages, hk, hpages, herr⟩
    · rw [main_run, if_neg hclient, hauth]
    · have hloop : get_liked_songs true env.api env.fetchFuel = some (Except.error e) :=
        get_liked_songs_loop_error env.api e k pages 0 [] env.fetchFuel hk
          (fun j hj => by simpa using hpages j hj)
          (by simpa using herr)
      rw [main_run, if_neg hclient, hauth, hloop]
  refine ⟨hmr, ?_⟩
  rw [main_exit_code, hmr]
  rfl

/-- Witness for C9: authentication raises `invalid session`; the run's whole
trace is the error message and the exit status is 0. -/
theorem fatal_error_abort_witness :
    main_run authFailMainEnv = some [Event.printed "❌ An error occurred: invalid session"] ∧
    main_exit_code authFailMainEnv = some 0 := by
  have h := fatal_error_abort authFailMainEnv { msg := "invalid session" }
    (by decide) (Or.inl rfl)
  revert h
  decide

/-- Counterexample to C9 as stated: on a run whose very first catalog page
request raises, the process exit status is 0, not non-zero — `main` catches
the exception and the script ends normally. -/
theorem fatal_error_abort_counterexample :
    main_run pageFailMainEnv =
      some [Event.printed "❌ An error occurred: HTTP 500 from Spotify"] ∧
    main_exit_code pageFailMainEnv = some 0 ∧
    ¬ main_exit_code pageFailMainEnv = some 1 := by
  decide

/-- C10. If the fetched liked-songs list is empty, `main` reports
`No liked songs found!` and returns immediately: the trace holds no
snapshot write, no confirmation prompt and no download run. -/
theorem empty_catalog_early_return (env : MainEnv) (offs : List Nat)
    (hclient : ¬ env.client_id = "your_spotify_client_id_here")
    (hauth : env.authResult = Except.ok ())
    (hfetch : get_liked_songs true env.api env.fetchFuel = some (Except.ok ([], offs))) :
    main_run env = some [Event.printed "No liked songs found!"] ∧
    ([Event.printed "No liked songs found!"] : List Event).all
      (fun ev => !(isWriteEvent ev || isPromptEvent ev || isRunEvent ev)) = true := by
  refine ⟨?_, rfl⟩
  rw [main_run, if_neg hclient, hauth, hfetch]
  rfl

/-- Witness for C10: the concrete empty-library run. -/
theorem empty_catalog_early_return_witness :
    main_run emptyCatalogMainEnv = some [Event.printed "No liked songs found!"] ∧
    ([Event.printed "No liked songs found!"] : List Event).all
      (fun ev => !(isWriteEvent ev || isPromptEvent ev || isRunEvent ev)) = true :=
  empty_catalog_early_return emptyCatalogMainEnv [0] (by decide) rfl (by decide)
